import Mathlib

/-!
# Verification of the poipoi conversion core

A shallow embedding, in Lean 4, of the progress-broadcast and
temporary-artifact-store core of the poipoi image/PDF conversion server
(`src/controllers/imageController.js`, `src/controllers/pdfController.js`,
`src/utils/imageConverter.js`, `src/utils/pdfConverter.js`,
`src/routes/convert.js`), together with theorems settling the frozen
claims about that core.

Modelling conventions:
- byte buffers (`Buffer`) are `List Nat`; only their contents and lengths
  are relevant to the claims;
- `Date.now()` timestamps are `Nat` milliseconds, passed explicitly where
  the source reads the ambient clock;
- the process-wide `global.tempFiles` object is a finite map modelled as a
  function `String → Option TempFile`;
- JS template strings over numbers use `Nat.repr` (decimal notation,
  exactly what `${Date.now()}` produces);
- the opaque codec libraries (sharp, pdf-lib) are parameters: a codec is a
  function from a buffer and the selected operation to `Except String` of
  an output buffer, and `PDFDocument.load` / `pdfDoc.save` outcomes are
  `Except`-valued parameters;
- progress percentages are exact rationals (`ℚ`); JS numbers on the
  progress path are products/sums of small decimals, modelled exactly;
- the `setTimeout` deferred deletion of the download route is modelled as
  an explicit scheduled-deletion token `(filename, delayMs)` together
  with a `fireScheduledDeletion` step executing the timer body.
-/

/-- One record of the ephemeral artifact store: the value stored in
`global.tempFiles[filename]` by `storeForDownload` (both controllers). -/
structure TempFile where
  buffer : List Nat
  mimeType : String
  originalName : String
  timestamp : Nat
deriving Repr, DecidableEq

/-- The process-wide `global.tempFiles` mapping. -/
def Store : Type := String → Option TempFile

/-- The store before any file was ever stored (`global.tempFiles`
uninitialised / just initialised to `{}`). -/
def emptyStore : Store := fun _ => none

/-- JS property assignment `global.tempFiles[filename] = record`. -/
def storeSet (filename : String) (record : TempFile) (s : Store) : Store :=
  fun k => if k = filename then some record else s k

/-- JS property read `global.tempFiles[filename]` (undefined ↦ `none`). -/
def storeGet (filename : String) (s : Store) : Option TempFile :=
  s filename

/-- JS `delete global.tempFiles[filename]`. -/
def storeDel (filename : String) (s : Store) : Store :=
  fun k => if k = filename then none else s k

/-- The retention window of the store sweep: `10 * 60 * 1000` ms
(both controllers' `cleanupOldFiles`). -/
def maxAgeMs : Nat := 10 * 60 * 1000

/-- `cleanupOldFiles` (identical in `ImageController` and `PDFController`):
deletes every stored record whose age `now - timestamp` exceeds
`maxAgeMs`.  JS `now - ts > maxAge` on numbers agrees with truncated `Nat`
subtraction here: for `ts ≤ now` both sides coincide, and for `ts > now`
the JS comparison is false (negative left side) just as `0 > maxAge` is. -/
def cleanupOldFiles (now : Nat) (s : Store) : Store :=
  fun k =>
    match s k with
    | some f => if now - f.timestamp > maxAgeMs then none else some f
    | none => none

/-- `Nat.repr`, i.e. the decimal string a JS template literal produces for
a (natural) number; named for readability of the filename builders. -/
def jsNumToString (n : Nat) : String := Nat.repr n

/-- The filename generated by `ImageController.storeForDownload`:
`` `converted_${Date.now()}.${format}` ``. -/
def mkImageFilename (now : Nat) (format : String) : String :=
  "converted_" ++ jsNumToString now ++ "." ++ format

/-- The filename generated by `PDFController.storeForDownload`:
`` `compressed_${Date.now()}.pdf` ``. -/
def mkPdfFilename (now : Nat) : String :=
  "compressed_" ++ jsNumToString now ++ ".pdf"

/-- JS `String.prototype.toLowerCase` on one character: the sources only
lower-case ASCII format names, where it maps `A`–`Z` to `a`–`z` and fixes
everything else. -/
def jsCharToLower (c : Char) : Char :=
  if 65 ≤ c.toNat ∧ c.toNat ≤ 90 then Char.ofNat (c.toNat + 32) else c

/-- JS `String.prototype.toLowerCase`. -/
def jsToLowerCase (s : String) : String := ⟨s.data.map jsCharToLower⟩

/-- `ImageController.getMimeType`. -/
def getMimeType (format : String) : String :=
  let f := jsToLowerCase format
  if f = "jpg" then "image/jpeg"
  else if f = "jpeg" then "image/jpeg"
  else if f = "png" then "image/png"
  else if f = "webp" then "image/webp"
  else if f = "bmp" then "image/bmp"
  else if f = "gif" then "image/gif"
  else if f = "tiff" then "image/tiff"
  else "application/octet-stream"

namespace ImageController

/-- `ImageController.storeForDownload`: generates the filename from the
current time, stores the record, runs the amortised sweep, and returns the
download URL.  (The source reads `Date.now()` twice in the same
synchronous block; both reads are modelled by the single `now`.) -/
def storeForDownload (now : Nat) (buffer : List Nat) (format : String)
    (s : Store) : String × Store :=
  let filename := mkImageFilename now format
  let record : TempFile :=
    { buffer := buffer
      mimeType := getMimeType format
      originalName := "converted_image." ++ format
      timestamp := now }
  let s1 := storeSet filename record s
  let s2 := cleanupOldFiles now s1
  ("/api/convert/download/" ++ filename, s2)

end ImageController

namespace PDFController

/-- `PDFController.storeForDownload`: the PDF analogue
(`compressed_${Date.now()}.pdf`, MIME `application/pdf`). -/
def storeForDownload (now : Nat) (buffer : List Nat) (s : Store) :
    String × Store :=
  let filename := mkPdfFilename now
  let record : TempFile :=
    { buffer := buffer
      mimeType := "application/pdf"
      originalName := "compressed_document.pdf"
      timestamp := now }
  let s1 := storeSet filename record s
  let s2 := cleanupOldFiles now s1
  ("/api/convert/download/" ++ filename, s2)

end PDFController

/-- Response of `GET /api/convert/download/:filename`
(`src/routes/convert.js`): either a 404 JSON error with no content body,
or the stored bytes with their content type and the suggested display
name from the `Content-Disposition` header. -/
inductive DownloadResponse where
  | notFound (error : String)
  | ok (body : List Nat) (contentType : String) (displayName : String)
deriving Repr, DecidableEq

/-- Grace delay of the deferred deletion scheduled by the download route:
`60000` ms. -/
def graceDelayMs : Nat := 60000

/-- Outcome of one execution of the download route handler: the HTTP
response, the store as the handler leaves it (the handler never mutates
the store synchronously), and the deferred deletion it schedules via
`setTimeout` (filename and delay), if any. -/
structure DownloadOutcome where
  response : DownloadResponse
  store : Store
  scheduledDeletion : Option (String × Nat)

/-- The `GET /download/:filename` handler of `src/routes/convert.js`. -/
def downloadHandler (filename : String) (s : Store) : DownloadOutcome :=
  match storeGet filename s with
  | none =>
      { response := .notFound "File not found or expired"
        store := s
        scheduledDeletion := none }
  | some f =>
      { response := .ok f.buffer f.mimeType f.originalName
        store := s
        scheduledDeletion := some (filename, graceDelayMs) }

/-- The body of the `setTimeout` callback scheduled by the download
route: delete the record if it is still present. -/
def fireScheduledDeletion (filename : String) (s : Store) : Store :=
  if (storeGet filename s).isSome then storeDel filename s else s

/-! ## Progress broadcasting -/

/-- The `data` object passed to `broadcastProgress`
(`{ progress, message, error? }`).  Percentages are exact rationals. -/
structure ProgressData where
  progress : ℚ
  message : String
  error : Option String := none
deriving Repr, DecidableEq

/-- The JSON message written to each listener:
`JSON.stringify({ type: 'progress', data })`, modelled structurally (the
serialisation is injective on this shape, so the structured value is the
faithful observable). -/
structure WsMessage where
  type : String
  data : ProgressData
deriving Repr, DecidableEq

/-- One connected WebSocket client: its `readyState`, whether the
transport would deliver a write (`ws`'s `send` on an OPEN socket never
throws synchronously — a transport failure is reported asynchronously and
the write is simply lost), and the messages delivered so far. -/
structure WsClient where
  readyState : Nat
  deliveryOk : Bool
  received : List WsMessage
deriving Repr, DecidableEq

/-- `client.send(message)` guarded by the `readyState === 1` check of
`broadcastProgress`: an OPEN client whose transport works receives the
message; an OPEN client whose transport fails loses it silently; any
other client is skipped. -/
def sendToClient (msg : WsMessage) (c : WsClient) : WsClient :=
  if c.readyState = 1 then
    if c.deliveryOk then { c with received := c.received ++ [msg] } else c
  else c

/-- `broadcastProgress(wss, data)` (identical in both controllers):
serialise once, then `wss.clients.forEach(...)`. -/
def broadcastProgress (clients : List WsClient) (data : ProgressData) :
    List WsClient :=
  let message : WsMessage := { type := "progress", data := data }
  clients.map (sendToClient message)

/-! ## Image converter (`src/utils/imageConverter.js`) -/

/-- One settings object of `ImageConverter.getCompressionSettings`; a JS
object literal with the fields below present or absent (`{}` = all
absent). -/
structure ImageSettings where
  quality : Option Nat := none
  progressive : Option Bool := none
  mozjpeg : Option Bool := none
  compressionLevel : Option Nat := none
  adaptiveFiltering : Option Bool := none
  palette : Option Bool := none
  effort : Option Nat := none
  lossless : Option Bool := none
  compression : Option String := none
deriving Repr, DecidableEq

/-- The `jpg` row of the settings table. -/
def jpgLevels (level : String) : Option ImageSettings :=
  if level = "low" then some { quality := some 90, progressive := some true }
  else if level = "medium" then
    some { quality := some 75, progressive := some true }
  else if level = "high" then
    some { quality := some 60, progressive := some true, mozjpeg := some true }
  else none

/-- The `jpeg` row of the settings table (textually identical to `jpg`
in the source). -/
def jpegLevels (level : String) : Option ImageSettings :=
  if level = "low" then some { quality := some 90, progressive := some true }
  else if level = "medium" then
    some { quality := some 75, progressive := some true }
  else if level = "high" then
    some { quality := some 60, progressive := some true, mozjpeg := some true }
  else none

/-- The `png` row of the settings table. -/
def pngLevels (level : String) : Option ImageSettings :=
  if level = "low" then
    some { compressionLevel := some 3, adaptiveFiltering := some false }
  else if level = "medium" then
    some { compressionLevel := some 6, adaptiveFiltering := some true }
  else if level = "high" then
    some { compressionLevel := some 9, adaptiveFiltering := some true,
           palette := some true }
  else none

/-- The `webp` row of the settings table. -/
def webpLevels (level : String) : Option ImageSettings :=
  if level = "low" then some { quality := some 90, effort := some 2 }
  else if level = "medium" then some { quality := some 75, effort := some 4 }
  else if level = "high" then
    some { quality := some 60, effort := some 6, lossless := some false }
  else none

/-- The `tiff` row of the settings table. -/
def tiffLevels (level : String) : Option ImageSettings :=
  if level = "low" then some { compression := some "lzw" }
  else if level = "medium" then some { compression := some "deflate" }
  else if level = "high" then
    some { compression := some "jpeg", quality := some 75 }
  else none

/-- `settings[format]` of `ImageConverter.getCompressionSettings`: the
per-format row, or `undefined` for formats without a row (`bmp`, `gif`,
anything unrecognised). -/
def imageLevelTable (format : String) :
    Option (String → Option ImageSettings) :=
  if format = "jpg" then some jpgLevels
  else if format = "jpeg" then some jpegLevels
  else if format = "png" then some pngLevels
  else if format = "webp" then some webpLevels
  else if format = "tiff" then some tiffLevels
  else none

namespace ImageConverter

/-- `ImageConverter.getCompressionSettings(format, level)`:
`settings[format.toLowerCase()]?.[level] || settings[format.toLowerCase()]?.medium || {}`
(every settings object is truthy, so `||` is `Option.orElse` on the
optional-chaining results, with `{}` as final default). -/
def getCompressionSettings (format level : String) : ImageSettings :=
  (((imageLevelTable (jsToLowerCase format)).bind (fun tbl => tbl level)).orElse
    (fun _ => (imageLevelTable (jsToLowerCase format)).bind
      (fun tbl => tbl "medium"))).getD {}

end ImageConverter

/-- The sharp pipeline operation selected by the `switch` in
`ImageConverter.convert`: which encoder is invoked, and with which
settings object (none for `bmp`/`gif`, which are invoked without
arguments). -/
inductive SharpOp where
  | jpeg (settings : ImageSettings)
  | png (settings : ImageSettings)
  | webp (settings : ImageSettings)
  | bmp
  | gif
  | tiff (settings : ImageSettings)
deriving Repr, DecidableEq

/-- The `switch (outputFormat.toLowerCase())` of `ImageConverter.convert`:
selects the encoder operation or throws `Unsupported output format`. -/
def selectSharpOp (outputFormat : String) (settings : ImageSettings) :
    Except String SharpOp :=
  let f := jsToLowerCase outputFormat
  if f = "jpg" then .ok (.jpeg settings)
  else if f = "jpeg" then .ok (.jpeg settings)
  else if f = "png" then .ok (.png settings)
  else if f = "webp" then .ok (.webp settings)
  else if f = "bmp" then .ok .bmp
  else if f = "gif" then .ok .gif
  else if f = "tiff" then .ok (.tiff settings)
  else .error ("Unsupported output format: " ++ outputFormat)

/-- The opaque sharp encoder: `sharpInstance.toBuffer()` after the
selected operation was applied to the pipeline for the given source
buffer.  A parameter of the model — the codec library is out of scope. -/
def ImageCodec : Type := List Nat → SharpOp → Except String (List Nat)

namespace ImageConverter

/-- `ImageConverter.convert`: returns the sequence of
`progressCallback(percent, message)` invocations (in order) and the
converted buffer, or the wrapped error thrown by the `catch` block. -/
def convert (codec : ImageCodec) (buffer : List Nat)
    (outputFormat compressionLevel : String) :
    List (ℚ × String) × Except String (List Nat) :=
  let e1 : List (ℚ × String) := [(10, "Initializing conversion...")]
  let compressionSettings := getCompressionSettings outputFormat compressionLevel
  let e2 := e1 ++ [(30, "Applying compression settings...")]
  match selectSharpOp outputFormat compressionSettings with
  | .error m => (e2, .error ("Failed to convert image: " ++ m))
  | .ok op =>
    let e3 := e2 ++ [(60, "Converting image...")]
    match codec buffer op with
    | .error m => (e3, .error ("Failed to convert image: " ++ m))
    | .ok convertedBuffer =>
      (e3 ++ [(90, "Finalizing conversion..."), (100, "Conversion complete!")],
       .ok convertedBuffer)

end ImageConverter

/-! ## PDF converter (`src/utils/pdfConverter.js`) -/

/-- One settings object of `PDFConverter.getCompressionSettings`. -/
structure PdfSettings where
  useObjectStreams : Bool
  objectStreamCompressionMethod : String
  scaleImages : Bool
  removeAnnotations : Bool
  removeDuplicateObjects : Bool
deriving Repr, DecidableEq

/-- The `low` settings object. -/
def pdfLowSettings : PdfSettings :=
  { useObjectStreams := false
    objectStreamCompressionMethod := "deflate"
    scaleImages := false
    removeAnnotations := false
    removeDuplicateObjects := false }

/-- The `medium` settings object. -/
def pdfMediumSettings : PdfSettings :=
  { useObjectStreams := true
    objectStreamCompressionMethod := "deflate"
    scaleImages := false
    removeAnnotations := false
    removeDuplicateObjects := true }

/-- The `high` settings object. -/
def pdfHighSettings : PdfSettings :=
  { useObjectStreams := true
    objectStreamCompressionMethod := "deflate"
    scaleImages := true
    removeAnnotations := true
    removeDuplicateObjects := true }

namespace PDFConverter

/-- `PDFConverter.getCompressionSettings(level)`:
`settings[level] || settings.medium` (objects are truthy). -/
def getCompressionSettings (level : String) : PdfSettings :=
  if level = "low" then pdfLowSettings
  else if level = "medium" then pdfMediumSettings
  else if level = "high" then pdfHighSettings
  else pdfMediumSettings

/-- The `progressCallback` invocations of `applyCompression` for an
`n`-page document: one per page at `50 + (i / n) * 40`, then the
document-optimisation event at `85`.  (`optimizePage` / `optimizeDocument`
swallow their own errors, so the loop always completes.) -/
def applyCompressionEvents (n : Nat) : List (ℚ × String) :=
  ((List.range n).map fun (i : Nat) =>
    ((50 : ℚ) + ((i : ℚ) / (n : ℚ)) * 40,
     "Processing page " ++ jsNumToString (i + 1) ++ " of " ++
       jsNumToString n ++ "..."))
  ++ [(85, "Applying document optimizations...")]

/-- `PDFConverter.compress`: `loadRes` is the outcome of
`PDFDocument.load(buffer)` (page count on success), `saveRes` the outcome
of `pdfDoc.save({...})` for the chosen settings.  Returns the
`progressCallback` invocations in order and the compressed buffer, or the
error wrapped by the `catch` block. -/
def compress (loadRes : Except String Nat)
    (saveRes : PdfSettings → Except String (List Nat))
    (compressionLevel : String) :
    List (ℚ × String) × Except String (List Nat) :=
  let e1 : List (ℚ × String) := [(10, "Loading PDF document...")]
  match loadRes with
  | .error m => (e1, .error ("Failed to compress PDF: " ++ m))
  | .ok n =>
    let settings := getCompressionSettings compressionLevel
    let e2 := e1 ++ [(30, "Analyzing document structure...")]
    let e3 := e2 ++ [(50, "Applying compression...")]
    let e4 := e3 ++ applyCompressionEvents n
    let e5 := e4 ++ [(90, "Generating compressed PDF...")]
    match saveRes settings with
    | .error m => (e5, .error ("Failed to compress PDF: " ++ m))
    | .ok compressedBuffer =>
      (e5 ++ [(100, "Compression complete!")], .ok compressedBuffer)

end PDFConverter

/-! ## `toFixed(1)` and the result records -/

/-- Decimal rendering of `x.toFixed(1)` for a non-negative rational:
the nearest multiple of `1/10`, ties towards the larger value, printed
with exactly one fractional digit. -/
def fixed1Digits (q : ℚ) : String :=
  let n : ℤ := ⌊q * 10 + 1 / 2⌋
  toString (n / 10) ++ "." ++ toString (n % 10)

/-- JS `Number.prototype.toFixed(1)`: the sign is split off first, then
the magnitude is rounded (so values in `(-0.05, 0)` print as `-0.0`).
The double-precision value being formatted is modelled by the exact
rational it approximates. -/
def jsToFixed1 (q : ℚ) : String :=
  if q < 0 then "-" ++ fixed1Digits (-q) else fixed1Digits q

/-- The object returned by `ImageController.convertImage` on success. -/
structure ImageResult where
  downloadUrl : String
  outputFormat : String
  originalSize : Nat
  convertedSize : Nat
  compressionRatio : String
deriving Repr, DecidableEq

/-- The object returned by `PDFController.compressPDF` on success. -/
structure PdfResult where
  downloadUrl : String
  originalSize : Nat
  compressedSize : Nat
  compressionRatio : String
deriving Repr, DecidableEq

/-! ## Controllers -/

namespace ImageController

/-- `ImageController.convertImage`: the orchestrator for one image
conversion.  `metaRes` is the outcome of `sharp(buffer).metadata()` (its
value is only logged / passed through, so `Unit` suffices); `codec` is
the sharp encoder.  Returns the `broadcastProgress` payloads in order,
the store after the call, and the result or the propagated error. -/
def convertImage (codec : ImageCodec) (metaRes : Except String Unit)
    (buffer : List Nat) (outputFormat compressionLevel : String)
    (now : Nat) (s : Store) :
    List ProgressData × Store × Except String ImageResult :=
  let ev0 : List ProgressData := [⟨10, "Analyzing image...", none⟩]
  match metaRes with
  | .error m =>
      (ev0 ++ [⟨0, "Conversion failed", some m⟩], s,
       .error ("Image conversion failed: " ++ m))
  | .ok _ =>
    let ev1 := ev0 ++ [⟨30, "Starting conversion...", none⟩]
    let conv := ImageConverter.convert codec buffer outputFormat compressionLevel
    let ev2 := ev1 ++ conv.1.map fun e =>
      ⟨30 + e.1 * (6 / 10), e.2, none⟩
    match conv.2 with
    | .error m =>
        (ev2 ++ [⟨0, "Conversion failed", some m⟩], s,
         .error ("Image conversion failed: " ++ m))
    | .ok convertedBuffer =>
      let ev3 := ev2 ++ [⟨90, "Preparing download...", none⟩]
      let stored := storeForDownload now convertedBuffer outputFormat s
      let originalSize := buffer.length
      let convertedSize := convertedBuffer.length
      let ratio :=
        jsToFixed1 ((((originalSize : ℚ) - (convertedSize : ℚ)) /
          (originalSize : ℚ)) * 100)
      let ev4 := ev3 ++ [⟨100, "Conversion completed!", none⟩]
      (ev4, stored.2,
       .ok { downloadUrl := stored.1
             outputFormat := outputFormat
             originalSize := originalSize
             convertedSize := convertedSize
             compressionRatio := ratio ++ "%" })

end ImageController

namespace PDFController

/-- `PDFController.compressPDF`: the orchestrator for one PDF
compression.  `loadRes` is the outcome of `PDFDocument.load(buffer)`
(page count on success; the controller and the converter load the same
buffer, hence share it), `saveRes` the outcome of `pdfDoc.save`. -/
def compressPDF (loadRes : Except String Nat)
    (saveRes : PdfSettings → Except String (List Nat))
    (buffer : List Nat) (compressionLevel : String)
    (now : Nat) (s : Store) :
    List ProgressData × Store × Except String PdfResult :=
  let ev0 : List ProgressData := [⟨10, "Analyzing PDF...", none⟩]
  match loadRes with
  | .error m =>
      (ev0 ++ [⟨0, "Compression failed", some m⟩], s,
       .error ("PDF compression failed: " ++ m))
  | .ok pageCount =>
    let ev1 := ev0 ++
      [⟨20, "Processing PDF with " ++ jsNumToString pageCount ++
        " pages...", none⟩]
    let comp := PDFConverter.compress loadRes saveRes compressionLevel
    let ev2 := ev1 ++ comp.1.map fun e =>
      ⟨20 + e.1 * (7 / 10), e.2, none⟩
    match comp.2 with
    | .error m =>
        (ev2 ++ [⟨0, "Compression failed", some m⟩], s,
         .error ("PDF compression failed: " ++ m))
    | .ok compressedBuffer =>
      let ev3 := ev2 ++ [⟨90, "Preparing download...", none⟩]
      let stored := storeForDownload now compressedBuffer s
      let originalSize := buffer.length
      let compressedSize := compressedBuffer.length
      let ratio :=
        jsToFixed1 ((((originalSize : ℚ) - (compressedSize : ℚ)) /
          (originalSize : ℚ)) * 100)
      let ev4 := ev3 ++ [⟨100, "Compression completed!", none⟩]
      (ev4, stored.2,
       .ok { downloadUrl := stored.1
             originalSize := originalSize
             compressedSize := compressedSize
             compressionRatio := ratio ++ "%" })

end PDFController

/-! ## Routes (`src/routes/convert.js`) -/

/-- `compressionLevel || 'medium'` applied by both POST routes to the
request-body field (JS `||`: absent and the empty string are falsy). -/
def routeCompressionLevel (level : Option String) : String :=
  match level with
  | none => "medium"
  | some l => if l = "" then "medium" else l

/-- The HTTP status the `POST /image` and `POST /pdf` handlers answer
with, given the controller outcome: 200 on success, 500 (with the error
message) when the controller threw. -/
def routeStatusOf {α : Type} (result : Except String α) : Nat :=
  match result with
  | .ok _ => 200
  | .error _ => 500

/-! ## Decimal-representation toolkit

The filename builders embed `Date.now()` in decimal.  To reason about
identifier (non-)collision we prove that `Nat.repr` is injective, via a
digit decoder. -/

/-- Numeric value of a decimal digit character. -/
def decDigit (c : Char) : Nat := c.toNat - 48

/-- Value of a big-endian decimal digit string. -/
def decodeDigits (l : List Char) : Nat :=
  l.foldl (fun a c => 10 * a + decDigit c) 0

theorem decodeDigits_append_singleton (xs : List Char) (c : Char) :
    decodeDigits (xs ++ [c]) = 10 * decodeDigits xs + decDigit c := by
  simp [decodeDigits, List.foldl_append]

theorem decDigit_digitChar {m : Nat} (h : m < 10) :
    decDigit (Nat.digitChar m) = m := by
  interval_cases m <;> rfl

theorem toDigitsCore_eq_append (b : Nat) :
    ∀ (f n : Nat) (ds : List Char),
      Nat.toDigitsCore b f n ds = Nat.toDigitsCore b f n [] ++ ds := by
  intro f
  induction f with
  | zero => intro n ds; simp [Nat.toDigitsCore]
  | succ f ih =>
    intro n ds
    simp only [Nat.toDigitsCore]
    by_cases h : n / b = 0
    · simp [h]
    · simp only [h, if_false]
      rw [ih (n / b) [Nat.digitChar (n % b)],
        ih (n / b) (Nat.digitChar (n % b) :: ds), List.append_assoc]
      rfl

theorem decodeDigits_toDigitsCore :
    ∀ (f n : Nat), n < f →
      decodeDigits (Nat.toDigitsCore 10 f n []) = n := by
  intro f
  induction f with
  | zero => intro n h; omega
  | succ f ih =>
    intro n h
    simp only [Nat.toDigitsCore]
    by_cases hd : n / 10 = 0
    · have hn : n < 10 := by omega
      simp [hd, decodeDigits, Nat.mod_eq_of_lt hn, decDigit_digitChar hn]
    · have hpos : 10 ≤ n := by
        by_contra hlt
        exact hd (Nat.div_eq_of_lt (by omega))
      have hrec : n / 10 < f := by
        have := Nat.div_lt_self (by omega : 0 < n) (by omega : 1 < 10)
        omega
      simp only [hd, if_false]
      rw [toDigitsCore_eq_append, decodeDigits_append_singleton,
        ih (n / 10) hrec, decDigit_digitChar (Nat.mod_lt n (by omega))]
      omega

theorem decodeDigits_repr (n : Nat) :
    decodeDigits (Nat.repr n).data = n := by
  show decodeDigits (Nat.toDigits 10 n).asString.data = n
  have : (Nat.toDigits 10 n).asString.data = Nat.toDigits 10 n := rfl
  rw [this]
  exact decodeDigits_toDigitsCore (n + 1) n (Nat.lt_succ_self n)

theorem natRepr_injective {m n : Nat} (h : Nat.repr m = Nat.repr n) :
    m = n := by
  have := congrArg (fun s => decodeDigits s.data) h
  simpa [decodeDigits_repr] using this

theorem string_data_append (a b : String) :
    (a ++ b).data = a.data ++ b.data := rfl

theorem string_append_cancel_left {a b c : String} (h : a ++ b = a ++ c) :
    b = c := by
  have hd := congrArg String.data h
  simp only [string_data_append] at hd
  have := List.append_cancel_left hd
  cases b; cases c
  exact congrArg String.mk this

theorem mkPdfFilename_inj {n m : Nat}
    (h : mkPdfFilename n = mkPdfFilename m) : n = m := by
  have hd := congrArg String.data h
  simp only [mkPdfFilename, jsNumToString, string_data_append,
    List.append_assoc] at hd
  have h1 := List.append_cancel_left hd
  have h2 := List.append_cancel_right h1
  have h3 := congrArg decodeDigits h2
  simpa [decodeDigits_repr] using h3

theorem mkImageFilename_inj_time {n m : Nat} {fmt : String}
    (h : mkImageFilename n fmt = mkImageFilename m fmt) : n = m := by
  have hd := congrArg String.data h
  simp only [mkImageFilename, jsNumToString, string_data_append,
    List.append_assoc] at hd
  have h1 := List.append_cancel_left hd
  have h2 := List.append_cancel_right h1
  have h3 := congrArg decodeDigits h2
  simpa [decodeDigits_repr] using h3

theorem mkImageFilename_inj_format {n : Nat} {f g : String}
    (h : mkImageFilename n f = mkImageFilename n g) : f = g := by
  have hd := congrArg String.data h
  simp only [mkImageFilename, jsNumToString, string_data_append,
    List.append_assoc] at hd
  have h1 := List.append_cancel_left hd
  have h2 := List.append_cancel_left h1
  have h3 := List.append_cancel_left h2
  cases f; cases g
  exact congrArg String.mk h3

/-- The record `PDFController.storeForDownload` just wrote is present in
the store it returns (fresh records survive the amortised sweep). -/
theorem storeGet_after_pdf_put (now : Nat) (buf : List Nat) (s : Store) :
    storeGet (mkPdfFilename now) (PDFController.storeForDownload now buf s).2 =
      some { buffer := buf, mimeType := "application/pdf",
             originalName := "compressed_document.pdf", timestamp := now } := by
  simp [PDFController.storeForDownload, storeGet, cleanupOldFiles, storeSet,
    maxAgeMs]

/-- The record `ImageController.storeForDownload` just wrote is present in
the store it returns. -/
theorem storeGet_after_image_put (now : Nat) (buf : List Nat)
    (fmt : String) (s : Store) :
    storeGet (mkImageFilename now fmt)
        (ImageController.storeForDownload now buf fmt s).2 =
      some { buffer := buf, mimeType := getMimeType fmt,
             originalName := "converted_image." ++ fmt, timestamp := now } := by
  simp [ImageController.storeForDownload, storeGet, cleanupOldFiles, storeSet,
    maxAgeMs]

/-! ## Claim C1: identifier uniqueness of the artifact store -/

/-- C1, counterexample.  The claim "every identifier returned by
`storeForDownload` is unique among all currently live identifiers …
with no record of one run overwriting another's" is false: two
`PDFController.storeForDownload` calls in the same millisecond (here
`Date.now() = 1000`, buffers `[1]` and `[2]`) return the *same*
identifier, and after the second call the store holds the second run's
record under that identifier — the first run's record was overwritten. -/
theorem claim_C1_counterexample :
    (PDFController.storeForDownload 1000 [2]
        (PDFController.storeForDownload 1000 [1] emptyStore).2).1 =
      (PDFController.storeForDownload 1000 [1] emptyStore).1 ∧
    storeGet (mkPdfFilename 1000)
        (PDFController.storeForDownload 1000 [2]
          (PDFController.storeForDownload 1000 [1] emptyStore).2).2 =
      some { buffer := [2], mimeType := "application/pdf",
             originalName := "compressed_document.pdf", timestamp := 1000 } ∧
    ∀ k, storeGet k
        (PDFController.storeForDownload 1000 [2]
          (PDFController.storeForDownload 1000 [1] emptyStore).2).2 ≠
      some { buffer := [1], mimeType := "application/pdf",
             originalName := "compressed_document.pdf", timestamp := 1000 } := by
  refine ⟨rfl, storeGet_after_pdf_put 1000 [2] _, ?_⟩
  intro k
  simp only [PDFController.storeForDownload, storeGet, cleanupOldFiles,
    storeSet, emptyStore, maxAgeMs]
  by_cases hk : k = mkPdfFilename 1000 <;> simp [hk]

/-- C1, amended.  Identifiers are unique only across distinct
`Date.now()` milliseconds (and, for the image store, across distinct
output formats): puts at distinct times return distinct identifiers, and
image puts at one time with distinct formats return distinct
identifiers; but two puts of the same kind within one millisecond return
the identical identifier, and the later put's record silently replaces
the earlier one's. -/
theorem claim_C1_amended (n m : Nat) (fmt f g : String) (b1 b2 : List Nat)
    (s1 s2 : Store) (hnm : n ≠ m) (hfg : f ≠ g) :
    (PDFController.storeForDownload n b1 s1).1 ≠
      (PDFController.storeForDownload m b2 s2).1 ∧
    (ImageController.storeForDownload n b1 fmt s1).1 ≠
      (ImageController.storeForDownload m b2 fmt s2).1 ∧
    (ImageController.storeForDownload n b1 f s1).1 ≠
      (ImageController.storeForDownload n b2 g s2).1 ∧
    (PDFController.storeForDownload n b2
        (PDFController.storeForDownload n b1 s1).2).1 =
      (PDFController.storeForDownload n b1 s1).1 ∧
    storeGet (mkPdfFilename n)
        (PDFController.storeForDownload n b2
          (PDFController.storeForDownload n b1 s1).2).2 =
      some { buffer := b2, mimeType := "application/pdf",
             originalName := "compressed_document.pdf", timestamp := n } := by
  refine ⟨?_, ?_, ?_, rfl, storeGet_after_pdf_put n b2 _⟩
  · intro h
    exact hnm (mkPdfFilename_inj (string_append_cancel_left h))
  · intro h
    exact hnm (mkImageFilename_inj_time (string_append_cancel_left h))
  · intro h
    exact hfg (mkImageFilename_inj_format (string_append_cancel_left h))

/-- C1, witness for the amended theorem at concrete inputs. -/
theorem claim_C1_witness :
    (1000 : Nat) ≠ 1001 ∧ "jpg" ≠ "png" ∧
    (PDFController.storeForDownload 1000 [1] emptyStore).1 ≠
      (PDFController.storeForDownload 1001 [2] emptyStore).1 := by
  refine ⟨by decide, by decide, ?_⟩
  exact (claim_C1_amended 1000 1001 "jpg" "jpg" "png" [1] [2] emptyStore
    emptyStore (by decide) (by decide)).1

/-- After the scheduled deletion for `fn` fires, `fn` is gone. -/
theorem storeGet_fireScheduledDeletion (fn : String) (s : Store) :
    storeGet fn (fireScheduledDeletion fn s) = none := by
  simp only [fireScheduledDeletion, storeGet]
  by_cases h : (s fn).isSome
  · simp [h, storeDel]
  · simp only [h, if_false]
    simpa [Option.not_isSome_iff_eq_none] using h

/-! ## Claim C5: round-trip of the artifact store -/

/-- C5.  Round-trip of the artifact store, for both controllers: the
identifier returned by `storeForDownload` is the download URL of the
generated filename; fetching that filename before the deferred deletion
fires succeeds and returns exactly the stored bytes, content type and
display name; the handler leaves the record in the store (removal is
only *scheduled*, with the 60000 ms grace delay); and once the scheduled
deletion has fired, the same fetch yields the 404 "not found" outcome. -/
theorem claim_C5 (now : Nat) (buf : List Nat) (fmt : String) (s : Store) :
    ((PDFController.storeForDownload now buf s).1 =
        "/api/convert/download/" ++ mkPdfFilename now ∧
      downloadHandler (mkPdfFilename now)
          (PDFController.storeForDownload now buf s).2 =
        { response := .ok buf "application/pdf" "compressed_document.pdf"
          store := (PDFController.storeForDownload now buf s).2
          scheduledDeletion := some (mkPdfFilename now, 60000) } ∧
      downloadHandler (mkPdfFilename now)
          (fireScheduledDeletion (mkPdfFilename now)
            (PDFController.storeForDownload now buf s).2) =
        { response := .notFound "File not found or expired"
          store := fireScheduledDeletion (mkPdfFilename now)
            (PDFController.storeForDownload now buf s).2
          scheduledDeletion := none }) ∧
    ((ImageController.storeForDownload now buf fmt s).1 =
        "/api/convert/download/" ++ mkImageFilename now fmt ∧
      downloadHandler (mkImageFilename now fmt)
          (ImageController.storeForDownload now buf fmt s).2 =
        { response := .ok buf (getMimeType fmt) ("converted_image." ++ fmt)
          store := (ImageController.storeForDownload now buf fmt s).2
          scheduledDeletion := some (mkImageFilename now fmt, 60000) } ∧
      downloadHandler (mkImageFilename now fmt)
          (fireScheduledDeletion (mkImageFilename now fmt)
            (ImageController.storeForDownload now buf fmt s).2) =
        { response := .notFound "File not found or expired"
          store := fireScheduledDeletion (mkImageFilename now fmt)
            (ImageController.storeForDownload now buf fmt s).2
          scheduledDeletion := none }) := by
  refine ⟨⟨rfl, ?_, ?_⟩, rfl, ?_, ?_⟩
  · rw [downloadHandler, storeGet_after_pdf_put]
    rfl
  · rw [downloadHandler, storeGet_fireScheduledDeletion]
  · rw [downloadHandler, storeGet_after_image_put]
    rfl
  · rw [downloadHandler, storeGet_fireScheduledDeletion]

/-! ## Claim C6: retrieval of unknown / consumed / expired identifiers -/

/-- C6, counterexample.  "A retrieval for an identifier that … has
expired fails with NotFound … never returning a stale record" is false:
the download handler never consults the clock.  Concretely, a record
stored at timestamp 0 is far beyond the 10-minute retention window at
`now = 1000000`, yet — no `put` having run a sweep in between — the
handler still serves the stale record instead of a 404. -/
theorem claim_C6_counterexample :
    maxAgeMs < 1000000 - 0 ∧
    (downloadHandler "compressed_0.pdf"
        (storeSet "compressed_0.pdf"
          { buffer := [7], mimeType := "application/pdf",
            originalName := "compressed_document.pdf", timestamp := 0 }
          emptyStore)).response =
      .ok [7] "application/pdf" "compressed_document.pdf" := by
  exact ⟨by decide, rfl⟩

/-- C6, amended.  Retrieval for an identifier *not present in the store*
(never issued, or already removed by the sweep or by a fired deferred
deletion) yields the 404 outcome with no content body; retrieval for any
identifier present in the store — regardless of its age — returns the
stored binary content, its content type and the suggested display name.
Expired records are only guaranteed to yield 404 after a sweep has run
(the sweep being what removes over-age records). -/
theorem claim_C6_amended (fn : String) (s : Store) :
    (storeGet fn s = none →
      downloadHandler fn s =
        { response := .notFound "File not found or expired", store := s,
          scheduledDeletion := none }) ∧
    (∀ r, storeGet fn s = some r →
      (downloadHandler fn s).response = .ok r.buffer r.mimeType r.originalName) ∧
    (∀ now r, storeGet fn s = some r → maxAgeMs < now - r.timestamp →
      (downloadHandler fn (cleanupOldFiles now s)).response =
        .notFound "File not found or expired") := by
  refine ⟨?_, ?_, ?_⟩
  · intro h; rw [downloadHandler, h]
  · intro r h; rw [downloadHandler, h]
  · intro now r h hage
    have hnone : storeGet fn (cleanupOldFiles now s) = none := by
      simp only [storeGet, cleanupOldFiles] at h ⊢
      rw [h]
      simp [hage]
    rw [downloadHandler, hnone]

/-- C6, witness for the amended theorem at concrete inputs. -/
theorem claim_C6_witness :
    (downloadHandler "nope" emptyStore).response =
      .notFound "File not found or expired" ∧
    (downloadHandler "compressed_0.pdf"
        (cleanupOldFiles 1000000
          (storeSet "compressed_0.pdf"
            { buffer := [7], mimeType := "application/pdf",
              originalName := "compressed_document.pdf", timestamp := 0 }
            emptyStore))).response =
      .notFound "File not found or expired" := by
  constructor
  · exact congrArg DownloadOutcome.response
      ((claim_C6_amended "nope" emptyStore).1 rfl)
  · exact (claim_C6_amended "compressed_0.pdf" _).2.2 1000000
      { buffer := [7], mimeType := "application/pdf",
        originalName := "compressed_document.pdf", timestamp := 0 }
      (by rfl) (by decide)

/-! ## Claim C8: the sweep removes exactly the over-age records and is
idempotent -/

/-- C8.  `cleanupOldFiles` (the sweep) removes exactly the records whose
age exceeds the 10-minute retention window: a record survives the sweep
iff it was present and its age is within the window, and is absent
afterwards iff it was absent before or over-age.  The sweep is
idempotent: at a fixed current time, a second sweep with no intervening
`put` leaves the store unchanged. -/
theorem claim_C8 (now : Nat) (s : Store) :
    cleanupOldFiles now (cleanupOldFiles now s) = cleanupOldFiles now s ∧
    (∀ k f, cleanupOldFiles now s k = some f ↔
      (s k = some f ∧ now - f.timestamp ≤ maxAgeMs)) ∧
    (∀ k, cleanupOldFiles now s k = none ↔
      (s k = none ∨ ∃ f, s k = some f ∧ maxAgeMs < now - f.timestamp)) := by
  refine ⟨?_, ?_, ?_⟩
  · funext k
    simp only [cleanupOldFiles]
    cases hk : s k with
    | none => rfl
    | some f =>
      by_cases hage : now - f.timestamp > maxAgeMs <;> simp [hage]
  · intro k f
    simp only [cleanupOldFiles]
    cases hk : s k with
    | none => simp
    | some g =>
      by_cases hage : now - g.timestamp > maxAgeMs
      · simp only [hage, if_true]
        constructor
        · intro h; exact absurd h (by simp)
        · rintro ⟨hg, hle⟩
          cases hg
          omega
      · simp only [hage, if_false]
        constructor
        · rintro h
          cases h
          exact ⟨rfl, by omega⟩
        · rintro ⟨hg, _⟩
          exact hg
  · intro k
    simp only [cleanupOldFiles]
    cases hk : s k with
    | none => simp
    | some g =>
      by_cases hage : now - g.timestamp > maxAgeMs <;> simp [hage]

/-! ## Claim C4: best-effort fan-out of `broadcastProgress` -/

/-- C4.  `broadcastProgress` delivers the (single, serialised-once) event
to every currently connected listener that is open (`readyState === 1`)
and whose transport delivers, appends nothing for a listener that is not
open (skipped unchanged, without blocking), leaves a listener whose
delivery fails otherwise untouched, and — since the fan-out is a pure
per-listener map, total in the listener list — one listener's failure
neither raises an error to the orchestrator (the function is total, as
`ws`'s `send` on an open socket reports transport errors asynchronously
rather than throwing into `forEach`) nor affects delivery to the others:
the fan-out distributes over any split of the listener list. -/
theorem claim_C4 (clients : List WsClient) (data : ProgressData) :
    (broadcastProgress clients data).length = clients.length ∧
    List.Forall₂ (fun c c' =>
      (c.readyState = 1 → c.deliveryOk = true →
        c'.received = c.received ++ [{ type := "progress", data := data }]) ∧
      (c.readyState ≠ 1 → c' = c) ∧
      (c.deliveryOk = false → c' = c))
      clients (broadcastProgress clients data) ∧
    (∀ xs ys : List WsClient,
      broadcastProgress (xs ++ ys) data =
        broadcastProgress xs data ++ broadcastProgress ys data) := by
  refine ⟨by simp [broadcastProgress], ?_, ?_⟩
  · induction clients with
    | nil => exact List.Forall₂.nil
    | cons c cs ih =>
      refine List.Forall₂.cons ⟨?_, ?_, ?_⟩ ih
      · intro h1 h2
        simp [sendToClient, h1, h2]
      · intro h
        simp [sendToClient, h]
      · intro h
        simp only [sendToClient, h]
        split <;> simp
  · intro xs ys
    simp [broadcastProgress]

/-! ## Claim C9: unrecognized compression levels fall back to `medium` -/

/-- C9.  Any compression level other than `low` / `medium` / `high` is
treated exactly as `medium`: the image converter's selected settings for
such a level equal the ones for `medium` (for every output format), the
PDF converter's settings likewise, and the routes substitute the literal
`medium` for a missing (or empty, which JS `||` also treats as falsy)
request field before the controllers ever see it. -/
theorem claim_C9 (level : String) (h1 : level ≠ "low")
    (h2 : level ≠ "medium") (h3 : level ≠ "high") :
    (∀ format, ImageConverter.getCompressionSettings format level =
      ImageConverter.getCompressionSettings format "medium") ∧
    PDFConverter.getCompressionSettings level =
      PDFConverter.getCompressionSettings "medium" ∧
    routeCompressionLevel none = "medium" ∧
    routeCompressionLevel (some "") = "medium" := by
  refine ⟨?_, ?_, rfl, rfl⟩
  · intro format
    unfold ImageConverter.getCompressionSettings imageLevelTable
    split_ifs <;>
      simp [jpgLevels, jpegLevels, pngLevels, webpLevels, tiffLevels,
        h1, h2, h3]
  · unfold PDFConverter.getCompressionSettings
    simp [h1, h2, h3]

/-- C9, witness: the unrecognized level `"ultra"` (and a missing level)
behave as `medium` at concrete inputs. -/
theorem claim_C9_witness :
    ImageConverter.getCompressionSettings "png" "ultra" =
      ImageConverter.getCompressionSettings "png" "medium" ∧
    PDFConverter.getCompressionSettings "ultra" =
      PDFConverter.getCompressionSettings "medium" ∧
    routeCompressionLevel none = "medium" := by
  have h := claim_C9 "ultra" (by decide) (by decide) (by decide)
  exact ⟨h.1 "png", h.2.1, h.2.2.1⟩

/-! ## Claim C10: `bmp`/`gif` output is independent of the compression
level -/

/-- C10.  For output formats `bmp` and `gif` the image converter's
result — the full pair of callback-event list and conversion outcome —
is the same for any two compression levels: the computed compression
settings for these formats are the empty object, and the `switch` invokes
`.bmp()` / `.gif()` without passing settings, so the level cannot
influence the codec invocation. -/
theorem claim_C10 (codec : ImageCodec) (buffer : List Nat)
    (l1 l2 : String) :
    ImageConverter.convert codec buffer "bmp" l1 =
      ImageConverter.convert codec buffer "bmp" l2 ∧
    ImageConverter.convert codec buffer "gif" l1 =
      ImageConverter.convert codec buffer "gif" l2 ∧
    ImageConverter.getCompressionSettings "bmp" l1 = {} ∧
    ImageConverter.getCompressionSettings "gif" l1 = {} := by
  have hb : jsToLowerCase "bmp" = "bmp" := by decide
  have hg : jsToLowerCase "gif" = "gif" := by decide
  refine ⟨rfl, rfl, ?_, ?_⟩ <;>
    simp [ImageConverter.getCompressionSettings, imageLevelTable, hb, hg]

/-! ## Claim C7: exact sizes and unclamped ratio -/

/-- C7.  On every successful conversion the returned sizes are exactly
the byte lengths of the input and output buffers, and the ratio is
`(originalSize - resultSize) / originalSize` as a percentage string with
one decimal digit and a trailing `%` — computed in signed arithmetic
with no clamping, so an output larger than the input makes the ratio
value negative and the ratio string start with `-`. -/
theorem claim_C7
    (codec : ImageCodec) (buffer : List Nat) (fmt lvl : String)
    (now : Nat) (s : Store) (cbev : List (ℚ × String)) (out : List Nat)
    (n : Nat) (saveRes : PdfSettings → Except String (List Nat))
    (buf2 : List Nat) (lvl2 : String) (now2 : Nat) (s2 : Store)
    (cbev2 : List (ℚ × String)) (out2 : List Nat)
    (himg : ImageConverter.convert codec buffer fmt lvl = (cbev, .ok out))
    (hpdf : PDFConverter.compress (.ok n) saveRes lvl2 = (cbev2, .ok out2))
    (hb : 0 < buffer.length) (_hb2 : 0 < buf2.length) :
    (ImageController.convertImage codec (.ok ()) buffer fmt lvl now s).2.2 =
      .ok { downloadUrl := "/api/convert/download/" ++ mkImageFilename now fmt
            outputFormat := fmt
            originalSize := buffer.length
            convertedSize := out.length
            compressionRatio :=
              jsToFixed1 ((((buffer.length : ℚ) - (out.length : ℚ)) /
                (buffer.length : ℚ)) * 100) ++ "%" } ∧
    (PDFController.compressPDF (.ok n) saveRes buf2 lvl2 now2 s2).2.2 =
      .ok { downloadUrl := "/api/convert/download/" ++ mkPdfFilename now2
            originalSize := buf2.length
            compressedSize := out2.length
            compressionRatio :=
              jsToFixed1 ((((buf2.length : ℚ) - (out2.length : ℚ)) /
                (buf2.length : ℚ)) * 100) ++ "%" } ∧
    (buffer.length < out.length →
      (((buffer.length : ℚ) - (out.length : ℚ)) / (buffer.length : ℚ)) * 100
          < 0 ∧
      ∃ rest, jsToFixed1 ((((buffer.length : ℚ) - (out.length : ℚ)) /
        (buffer.length : ℚ)) * 100) = "-" ++ rest) := by
  refine ⟨?_, ?_, ?_⟩
  · simp only [ImageController.convertImage, himg]
    rfl
  · simp only [PDFController.compressPDF, hpdf]
    rfl
  · intro hgrow
    have hbq : (0 : ℚ) < (buffer.length : ℚ) := by exact_mod_cast hb
    have hlt : (buffer.length : ℚ) < (out.length : ℚ) := by exact_mod_cast hgrow
    have hneg : ((buffer.length : ℚ) - (out.length : ℚ)) < 0 := by linarith
    have hq : (((buffer.length : ℚ) - (out.length : ℚ)) /
        (buffer.length : ℚ)) * 100 < 0 := by
      have hd := div_neg_of_neg_of_pos hneg hbq
      have : (0 : ℚ) < 100 := by norm_num
      exact mul_neg_of_neg_of_pos hd this
    refine ⟨hq, ⟨fixed1Digits (-((((buffer.length : ℚ) - (out.length : ℚ)) /
      (buffer.length : ℚ)) * 100)), ?_⟩⟩
    simp [jsToFixed1, hq]

/-- C7, witness: a 4-byte input converted to a 2-byte output reports
sizes 4 and 2 and ratio `50.0%`. -/
theorem claim_C7_witness :
    (ImageController.convertImage (fun _ _ => Except.ok [0, 0]) (.ok ())
        [0, 0, 0, 0] "jpg" "low" 1000 emptyStore).2.2 =
      Except.ok { downloadUrl := "/api/convert/download/converted_1000.jpg"
                  outputFormat := "jpg"
                  originalSize := 4
                  convertedSize := 2
                  compressionRatio := "50.0%" } := by
  have h := (claim_C7 (fun _ _ => Except.ok [0, 0]) [0, 0, 0, 0] "jpg" "low"
    1000 emptyStore
    [(10, "Initializing conversion..."), (30, "Applying compression settings..."),
      (60, "Converting image..."), (90, "Finalizing conversion..."),
      (100, "Conversion complete!")] [0, 0]
    1 (fun _ => Except.ok [0]) [0] "low" 2000 emptyStore
    [(10, "Loading PDF document..."), (30, "Analyzing document structure..."),
      (50, "Applying compression..."),
      (50 + ((0 : ℚ) / (1 : ℚ)) * 40,
        "Processing page " ++ jsNumToString 1 ++ " of " ++ jsNumToString 1 ++
          "..."),
      (85, "Applying document optimizations..."),
      (90, "Generating compressed PDF..."), (100, "Compression complete!")]
    [0] rfl rfl (by decide) (by decide)).1
  rw [h]
  have h1 : ((([0, 0, 0, 0] : List Nat).length : ℚ) -
        (([0, 0] : List Nat).length : ℚ)) /
      (([0, 0, 0, 0] : List Nat).length : ℚ) * 100 = 50 := by norm_num
  rw [h1, jsToFixed1, if_neg (by norm_num), fixed1Digits]
  norm_num
  exact ⟨rfl, rfl⟩

/-! ## Claim C2: monotonicity of the progress sequence -/

/-- C2, counterexample.  The progress sequence of a *successful* 9-page
PDF compression is not non-decreasing: the last page-loop relay event is
`20 + (50 + (8/9)·40)·0.7 = 719/9 ≈ 79.89`, and the next event (the
relayed 85 % document-optimisation callback) is `20 + 85·0.7 = 79.5` —
a strict decrease on the success path (no terminal failure event is
involved: every published event has an empty error field). -/
theorem claim_C2_counterexample :
    (PDFController.compressPDF (.ok 9) (fun _ => Except.ok [0]) [0] "medium"
        1000 emptyStore).2.2.isOk = true ∧
    List.countP (fun e => e.error.isSome)
      (PDFController.compressPDF (.ok 9) (fun _ => Except.ok [0]) [0] "medium"
        1000 emptyStore).1 = 0 ∧
    ¬ List.Chain' (· ≤ ·)
      ((PDFController.compressPDF (.ok 9) (fun _ => Except.ok [0]) [0]
          "medium" 1000 emptyStore).1.map (fun e => e.progress)) := by
  refine ⟨rfl, ?_, ?_⟩ <;>
    norm_num [PDFController.compressPDF, PDFConverter.compress,
      PDFConverter.applyCompressionEvents, List.range_succ,
      List.chain'_append, List.chain'_cons, List.countP_cons,
      List.countP_append]

/-- C2, amended.  The progress sequence is non-decreasing for every
*image* conversion (success path: 10, 30, 36, 48, 66, 84, 90, 90, 100,
starting at 10 and ending at 100), and for every *PDF* compression of at
most 8 pages (the page-count threshold forced by the counterexample: for
9 or more pages the relayed page-loop overshoots the later 79.5 event);
on an adapter failure the sequence is non-decreasing up to the single
terminal event, whose percent is 0. -/
theorem claim_C2_amended
    (codec codecF : ImageCodec) (buffer bufferF bufP : List Nat)
    (fmt lvl fmtF lvlF lvlP : String) (now nowF nowP : Nat)
    (s sF sP : Store) (op opF : SharpOp) (out outP : List Nat) (m : String)
    (n : Nat) (saveRes : PdfSettings → Except String (List Nat))
    (hop : selectSharpOp fmt (ImageConverter.getCompressionSettings fmt lvl) =
      .ok op)
    (hc : codec buffer op = .ok out)
    (hsave : saveRes (PDFConverter.getCompressionSettings lvlP) = .ok outP)
    (hn : n ≤ 8)
    (hopF : selectSharpOp fmtF
      (ImageConverter.getCompressionSettings fmtF lvlF) = .ok opF)
    (hcF : codecF bufferF opF = .error m) :
    ((ImageController.convertImage codec (.ok ()) buffer fmt lvl now s).1.map
        (fun e => e.progress) = [10, 30, 36, 48, 66, 84, 90, 90, 100] ∧
      List.Chain' (· ≤ ·)
        ((ImageController.convertImage codec (.ok ()) buffer fmt lvl now
            s).1.map (fun e => e.progress)) ∧
      ((ImageController.convertImage codec (.ok ()) buffer fmt lvl now
          s).1.map (fun e => e.progress)).head? = some 10 ∧
      ((ImageController.convertImage codec (.ok ()) buffer fmt lvl now
          s).1.map (fun e => e.progress)).getLast? = some 100) ∧
    (List.Chain' (· ≤ ·)
        ((PDFController.compressPDF (.ok n) saveRes bufP lvlP nowP sP).1.map
          (fun e => e.progress)) ∧
      ((PDFController.compressPDF (.ok n) saveRes bufP lvlP nowP sP).1.map
          (fun e => e.progress)).head? = some 10 ∧
      ((PDFController.compressPDF (.ok n) saveRes bufP lvlP nowP sP).1.map
          (fun e => e.progress)).getLast? = some 100) ∧
    ((ImageController.convertImage codecF (.ok ()) bufferF fmtF lvlF nowF
        sF).1.map (fun e => e.progress) = [10, 30, 36, 48, 66, 0] ∧
      List.Chain' (· ≤ ·)
        (((ImageController.convertImage codecF (.ok ()) bufferF fmtF lvlF nowF
            sF).1.map (fun e => e.progress)).dropLast) ∧
      ((ImageController.convertImage codecF (.ok ()) bufferF fmtF lvlF nowF
          sF).1.map (fun e => e.progress)).getLast? = some 0) := by
  have hmapA : (ImageController.convertImage codec (.ok ()) buffer fmt lvl now
      s).1.map (fun e => e.progress) = [10, 30, 36, 48, 66, 84, 90, 90, 100] := by
    norm_num [ImageController.convertImage, ImageConverter.convert, hop, hc]
  have hmapC : (ImageController.convertImage codecF (.ok ()) bufferF fmtF lvlF
      nowF sF).1.map (fun e => e.progress) = [10, 30, 36, 48, 66, 0] := by
    norm_num [ImageController.convertImage, ImageConverter.convert, hopF, hcF]
  refine ⟨⟨hmapA, ?_, ?_, ?_⟩, ⟨?_, ?_, ?_⟩, ⟨hmapC, ?_, ?_⟩⟩
  · rw [hmapA]
    norm_num [List.chain'_cons]
  · rw [hmapA]
    rfl
  · rw [hmapA]
    rfl
  · interval_cases n <;>
      norm_num [PDFController.compressPDF, PDFConverter.compress,
        PDFConverter.applyCompressionEvents, hsave, List.range_succ,
        List.chain'_append, List.chain'_cons]
  · interval_cases n <;>
      norm_num [PDFController.compressPDF, PDFConverter.compress,
        PDFConverter.applyCompressionEvents, hsave, List.range_succ]
  · interval_cases n <;>
      norm_num [PDFController.compressPDF, PDFConverter.compress,
        PDFConverter.applyCompressionEvents, hsave, List.range_succ,
        List.getLast?_append]
  · rw [hmapC]
    norm_num [List.chain'_cons, List.dropLast]
  · rw [hmapC]
    rfl

/-- C2, witness for the amended theorem at concrete inputs. -/
theorem claim_C2_witness :
    (ImageController.convertImage (fun _ _ => Except.ok [0]) (.ok ())
        [0] "png" "low" 1 emptyStore).1.map (fun e => e.progress) =
      [10, 30, 36, 48, 66, 84, 90, 90, 100] ∧
    List.Chain' (· ≤ ·)
      ((PDFController.compressPDF (.ok 8) (fun _ => Except.ok [0]) [0] "low" 1
          emptyStore).1.map (fun e => e.progress)) ∧
    (ImageController.convertImage (fun _ _ => Except.error "sharp failed")
        (.ok ()) [0] "png" "low" 1 emptyStore).1.map (fun e => e.progress) =
      [10, 30, 36, 48, 66, 0] := by
  have h := claim_C2_amended (fun _ _ => Except.ok [0])
    (fun _ _ => Except.error "sharp failed") [0] [0] [0] "png" "low" "png"
    "low" "low" 1 1 1 emptyStore emptyStore emptyStore
    (.png (ImageConverter.getCompressionSettings "png" "low"))
    (.png (ImageConverter.getCompressionSettings "png" "low"))
    [0] [0] "sharp failed" 8 (fun _ => Except.ok [0])
    rfl rfl rfl (by norm_num) rfl rfl
  exact ⟨h.1.1, h.2.1.1, h.2.2.1⟩

/-! ## Claim C3: adapter failure — one terminal event, then propagation -/

/-- Every `progressCallback` percent issued inside `applyCompression`
is at least 50. -/
theorem applyCompressionEvents_fst_ge {n : Nat} {e : ℚ × String}
    (he : e ∈ PDFConverter.applyCompressionEvents n) : 50 ≤ e.1 := by
  simp only [PDFConverter.applyCompressionEvents, List.mem_append,
    List.mem_map, List.mem_range, List.mem_singleton] at he
  rcases he with ⟨i, _, rfl⟩ | rfl
  · have h0 : (0 : ℚ) ≤ (i : ℚ) / (n : ℚ) := by positivity
    simp only
    nlinarith
  · norm_num

/-- A string with a nonempty prefix is nonempty. -/
theorem prefix_append_ne_empty {pre : String} (m : String)
    (hpre : pre.length ≠ 0) : pre ++ m ≠ "" := by
  intro h
  have hl := congrArg String.length h
  rw [String.length_append] at hl
  have : String.length "" = 0 := rfl
  omega

/-- C3.  When the codec adapter fails, the orchestrator publishes
exactly one terminal progress event — the last one, with percent 0 and a
non-empty error text (the adapter's wrapped message) — and the
orchestrator's outcome is the propagated error (no success result), which
the route handler answers with status 500.  Both pipelines: the image
path with a failing sharp encoder, the PDF path with a failing
`pdfDoc.save`. -/
theorem claim_C3
    (codec : ImageCodec) (buffer : List Nat) (fmt lvl : String)
    (now : Nat) (s : Store) (op : SharpOp) (m : String)
    (n : Nat) (saveRes : PdfSettings → Except String (List Nat))
    (bufP : List Nat) (lvlP : String) (nowP : Nat) (sP : Store) (m2 : String)
    (hop : selectSharpOp fmt (ImageConverter.getCompressionSettings fmt lvl) =
      .ok op)
    (hc : codec buffer op = .error m)
    (hsave : saveRes (PDFConverter.getCompressionSettings lvlP) =
      .error m2) :
    ((ImageController.convertImage codec (.ok ()) buffer fmt lvl now
          s).1.getLast? =
        some ⟨0, "Conversion failed",
          some ("Failed to convert image: " ++ m)⟩ ∧
      List.countP (fun e => e.error.isSome)
        (ImageController.convertImage codec (.ok ()) buffer fmt lvl now
          s).1 = 1 ∧
      List.countP (fun e => decide (e.progress = 0))
        (ImageController.convertImage codec (.ok ()) buffer fmt lvl now
          s).1 = 1 ∧
      "Failed to convert image: " ++ m ≠ "" ∧
      (ImageController.convertImage codec (.ok ()) buffer fmt lvl now
          s).2.2 =
        .error ("Image conversion failed: " ++
          ("Failed to convert image: " ++ m)) ∧
      routeStatusOf (ImageController.convertImage codec (.ok ()) buffer fmt
        lvl now s).2.2 = 500) ∧
    ((PDFController.compressPDF (.ok n) saveRes bufP lvlP nowP
          sP).1.getLast? =
        some ⟨0, "Compression failed",
          some ("Failed to compress PDF: " ++ m2)⟩ ∧
      List.countP (fun e => e.error.isSome)
        (PDFController.compressPDF (.ok n) saveRes bufP lvlP nowP sP).1 = 1 ∧
      List.countP (fun e => decide (e.progress = 0))
        (PDFController.compressPDF (.ok n) saveRes bufP lvlP nowP sP).1 = 1 ∧
      "Failed to compress PDF: " ++ m2 ≠ "" ∧
      (PDFController.compressPDF (.ok n) saveRes bufP lvlP nowP sP).2.2 =
        .error ("PDF compression failed: " ++
          ("Failed to compress PDF: " ++ m2)) ∧
      routeStatusOf (PDFController.compressPDF (.ok n) saveRes bufP lvlP
        nowP sP).2.2 = 500) := by
  have hev : (ImageController.convertImage codec (.ok ()) buffer fmt lvl now
      s).1 =
      [⟨10, "Analyzing image...", none⟩, ⟨30, "Starting conversion...", none⟩,
       ⟨36, "Initializing conversion...", none⟩,
       ⟨48, "Applying compression settings...", none⟩,
       ⟨66, "Converting image...", none⟩,
       ⟨0, "Conversion failed",
         some ("Failed to convert image: " ++ m)⟩] := by
    norm_num [ImageController.convertImage, ImageConverter.convert, hop, hc]
  have hevP : (PDFController.compressPDF (.ok n) saveRes bufP lvlP nowP
      sP).1 =
      [⟨10, "Analyzing PDF...", none⟩,
       ⟨20, "Processing PDF with " ++ jsNumToString n ++ " pages...", none⟩,
       ⟨27, "Loading PDF document...", none⟩,
       ⟨41, "Analyzing document structure...", none⟩,
       ⟨55, "Applying compression...", none⟩] ++
      (PDFConverter.applyCompressionEvents n).map
        (fun e => ⟨20 + e.1 * (7 / 10), e.2, none⟩) ++
      [⟨83, "Generating compressed PDF...", none⟩,
       ⟨0, "Compression failed",
         some ("Failed to compress PDF: " ++ m2)⟩] := by
    norm_num [PDFController.compressPDF, PDFConverter.compress, hsave,
      List.map_append, List.append_assoc]
  have hres : (ImageController.convertImage codec (.ok ()) buffer fmt lvl now
      s).2.2 =
      .error ("Image conversion failed: " ++
        ("Failed to convert image: " ++ m)) := by
    norm_num [ImageController.convertImage, ImageConverter.convert, hop, hc]
  have hresP : (PDFController.compressPDF (.ok n) saveRes bufP lvlP nowP
      sP).2.2 =
      .error ("PDF compression failed: " ++
        ("Failed to compress PDF: " ++ m2)) := by
    norm_num [PDFController.compressPDF, PDFConverter.compress, hsave]
  refine ⟨⟨?_, ?_, ?_, ?_, hres, ?_⟩, ⟨?_, ?_, ?_, ?_, hresP, ?_⟩⟩
  · rw [hev]; rfl
  · rw [hev]
    simp [List.countP_cons]
  · rw [hev]
    norm_num [List.countP_cons]
  · exact prefix_append_ne_empty m (by decide)
  · rw [hres]; rfl
  · rw [hevP]
    have hsplit : ([⟨10, "Analyzing PDF...", none⟩,
        ⟨20, "Processing PDF with " ++ jsNumToString n ++ " pages...", none⟩,
        ⟨27, "Loading PDF document...", none⟩,
        ⟨41, "Analyzing document structure...", none⟩,
        ⟨55, "Applying compression...", none⟩] ++
      (PDFConverter.applyCompressionEvents n).map
        (fun e => ⟨20 + e.1 * (7 / 10), e.2, none⟩) ++
      [⟨83, "Generating compressed PDF...", none⟩,
       (⟨0, "Compression failed",
         some ("Failed to compress PDF: " ++ m2)⟩ : ProgressData)]) =
      ([⟨10, "Analyzing PDF...", none⟩,
        ⟨20, "Processing PDF with " ++ jsNumToString n ++ " pages...", none⟩,
        ⟨27, "Loading PDF document...", none⟩,
        ⟨41, "Analyzing document structure...", none⟩,
        ⟨55, "Applying compression...", none⟩] ++
      (PDFConverter.applyCompressionEvents n).map
        (fun e => ⟨20 + e.1 * (7 / 10), e.2, none⟩) ++
      [⟨83, "Generating compressed PDF...", none⟩]) ++
      [⟨0, "Compression failed",
        some ("Failed to compress PDF: " ++ m2)⟩] := by
      simp
    rw [hsplit, List.getLast?_concat]
  · rw [hevP]
    simp [List.countP_append, List.countP_cons, List.countP_map,
      Function.comp]
  · rw [hevP]
    have hzero : List.countP (fun e => decide (e.progress = 0))
        ((PDFConverter.applyCompressionEvents n).map
          (fun e => (⟨20 + e.1 * (7 / 10), e.2, none⟩ : ProgressData))) = 0 := by
      rw [List.countP_eq_zero]
      intro a ha
      rcases List.mem_map.mp ha with ⟨e, he, rfl⟩
      have h50 := applyCompressionEvents_fst_ge he
      simp only [decide_eq_true_eq]
      intro h0
      nlinarith
    norm_num [List.countP_append, List.countP_cons, hzero]
  · exact prefix_append_ne_empty m2 (by decide)
  · rw [hresP]; rfl

/-- C3, witness for the theorem at concrete inputs. -/
theorem claim_C3_witness :
    (ImageController.convertImage (fun _ _ => Except.error "boom") (.ok ())
        [0] "png" "low" 1 emptyStore).2.2 =
      .error ("Image conversion failed: " ++
        ("Failed to convert image: " ++ "boom")) ∧
    routeStatusOf (ImageController.convertImage
        (fun _ _ => Except.error "boom") (.ok ()) [0] "png" "low" 1
        emptyStore).2.2 = 500 ∧
    routeStatusOf (PDFController.compressPDF (.ok 2)
        (fun _ => Except.error "save failed") [0] "low" 1
        emptyStore).2.2 = 500 := by
  have h := claim_C3 (fun _ _ => Except.error "boom") [0] "png" "low" 1
    emptyStore (.png (ImageConverter.getCompressionSettings "png" "low"))
    "boom" 2 (fun _ => Except.error "save failed") [0] "low" 1 emptyStore
    "save failed" rfl rfl rfl
  exact ⟨h.1.2.2.2.2.1, h.1.2.2.2.2.2, h.2.2.2.2.2.2⟩
